import Mathlib

/-!
Verification of the alexa-siteinfo-parser extraction pipeline (src/asip.go).

The HTML/CSS-selector engine (goquery) is an external collaborator of the
repository and is modelled abstractly: an element carries its combined text,
its attribute list, and a finite map from selector strings to the list of
elements that selector matches beneath it; a selection is a list of matched
elements, its text being the concatenation of its members' texts, mirroring
goquery's Find / Text / First / Last / Attr / Length.  Go string helpers
(strings.TrimSpace, strings.ReplaceAll, strconv.ParseUint) are modelled on
the character list of the string so that everything is executable.
Everything from getUint down to parse and siteInfo is a direct translation
of src/asip.go.
-/

namespace Asip

/-- An abstract DOM element: its own combined text, its attribute list,
and, for each selector string, the list of descendant elements that
selector matches under it. -/
inductive Elem : Type where
  | mk (text : String) (attrs : List (String × String)) (kids : List (String × List Elem)) : Elem

/-- Association-list lookup for the selector map of an element. -/
def lookupKids : List (String × List Elem) → String → List Elem
  | [], _ => []
  | (k, v) :: rest, sel => if k = sel then v else lookupKids rest sel

/-- Association-list lookup for the attribute map of an element. -/
def lookupAttr : List (String × String) → String → Option String
  | [], _ => none
  | (k, v) :: rest, key => if k = key then some v else lookupAttr rest key

def Elem.text : Elem → String
  | .mk t _ _ => t

def Elem.findList : Elem → String → List Elem
  | .mk _ _ kids, sel => lookupKids kids sel

def Elem.attr : Elem → String → Option String
  | .mk _ attrs _, key => lookupAttr attrs key

/-- A goquery selection: the list of matched elements, in document order. -/
structure Selection where
  elems : List Elem

/-- All elements matched by a selector under any element of a list. -/
def findAll : List Elem → String → List Elem
  | [], _ => []
  | e :: es, sel => e.findList sel ++ findAll es sel

/-- goquery Selection.Find: matches of the selector under every element. -/
def Selection.find (s : Selection) (sel : String) : Selection :=
  ⟨findAll s.elems sel⟩

/-- goquery Selection.Text: concatenated text of all matched elements. -/
def Selection.text (s : Selection) : String :=
  s.elems.foldl (fun acc e => acc ++ e.text) ""

/-- goquery Selection.Length: number of matched elements. -/
def Selection.length (s : Selection) : Nat :=
  s.elems.length

/-- goquery Selection.First: selection of the first matched element. -/
def Selection.first (s : Selection) : Selection :=
  ⟨s.elems.take 1⟩

/-- goquery Selection.Last: selection of the last matched element. -/
def Selection.last (s : Selection) : Selection :=
  ⟨s.elems.getLast?.toList⟩

/-- goquery Selection.Attr on the first matched element (value part). -/
def Selection.attr (s : Selection) (key : String) : Option String :=
  match s.elems with
  | [] => none
  | e :: _ => e.attr key

/-- The one-element selection goquery's Each passes to its callback. -/
def Selection.one (e : Elem) : Selection :=
  ⟨[e]⟩

/-- Model of strings.TrimSpace: drop whitespace from both ends. -/
def trimStr (s : String) : String :=
  ⟨((s.data.dropWhile Char.isWhitespace).reverse.dropWhile Char.isWhitespace).reverse⟩

/-- Model of strings.ReplaceAll(s, ",", ""): remove every comma. -/
def removeCommas (s : String) : String :=
  ⟨s.data.filter (fun c => c != ',')⟩

/-- Model of strconv.ParseUint(s, 10, 64): a nonempty all-digit string whose
value fits in 64 bits; no sign and no other characters are accepted. -/
def parseUint64 (s : String) : Option Nat :=
  if s.data = [] then none
  else if s.data.all Char.isDigit then
    let v := s.data.foldl (fun a c => a * 10 + (c.toNat - 48)) 0
    if v < 2 ^ 64 then some v else none
  else none

-- Selector constants from src/asip.go.
def seGlobalRank : String := "span.globleRank span div strong"
def seLocalRank : String := "span.countryRank span div strong"
def seCountry : String := "span.countryRank span h4 a"
def seVisitors : String := "table#demographics_div_country_table tbody"
def seKeywords : String := "table#keywords_top_keywords_table tbody"
def seUpstreams : String := "table#keywords_upstream_site_table tbody"
def seLinks : String := "table#linksin_table tbody"
def seLinkingTotal : String := "section#linksin-panel-content div span div span.font-4.box1-r"
def seRelated : String := "table#audience_overlap_table tbody"
def seCategories : String := "table#category_link_table tbody"
def seSubdomains : String := "table#subdomain_table tbody"
def seTitle : String := "div.row-fluid.siteinfo-site-summary span div p"
def seDescription : String := "section#contact-panel-content div.row-fluid span.span8 p.color-s3"
def seNoData : String := "section#no-enough-data"

/-- The error values the Go code produces, one constructor per construction
site kind: errors.New(ErrNoEnoughData); fmt.Errorf of the form
no KIND found in getUint/getString; strconv NumError; the errors.New
values of the tabular extractors; the non-200 status error of siteInfo;
and a transport failure of the GET function itself. -/
inductive Err : Type where
  | noEnoughData : Err
  | notFound (kind : String) : Err
  | numError (fn : String) (num : String) : Err
  | tableAbsent (msg : String) : Err
  | status (code : Nat) (domain : String) : Err
  | transport (msg : String) : Err
deriving DecidableEq

/-- Link is a site and page that links to the website. -/
structure Link where
  Site : String := ""
  Page : String := ""
deriving DecidableEq

/-- Visitor represents a variety of visitors from a single country. -/
structure Visitor where
  Country : String := ""
  Percent : String := ""
  LocalRank : Nat := 0
deriving DecidableEq

/-- Keyword is one of the top keywords from search engines. -/
structure Keyword where
  Word : String := ""
  Percent : String := ""
deriving DecidableEq

/-- Upstream sites people visited immediately before this site. -/
structure Upstream where
  Site : String := ""
  Percent : String := ""
deriving DecidableEq

/-- Subdomain represents subdomains where visitors go from the site. -/
structure Subdomain where
  Domain : String := ""
  Percent : String := ""
deriving DecidableEq

/-- Site is Website Traffic Statistics; the defaults are the Go zero values,
so the empty record literal is the Go `var s Site`. -/
structure Site where
  Title : String := ""
  Description : String := ""
  MainCountry : String := ""
  GlobalRank : Nat := 0
  LocalRank : Nat := 0
  LinkingTotal : Nat := 0
  Visitors : List Visitor := []
  Keywords : List Keyword := []
  Upstreams : List Upstream := []
  Related : List String := []
  Subdomains : List Subdomain := []
  Categories : List String := []
  LinksFrom : List Link := []
deriving DecidableEq

/-- The value component of a Go (value, err) pair whose value is the zero
value whenever err is non-nil: Except collapsed to the value. -/
def okD {α : Type} (x : Except Err α) (dflt : α) : α :=
  match x with
  | .ok v => v
  | .error _ => dflt

/-- getUint of src/asip.go: trimmed text of the selector match (or of the
selection itself when the selector is empty), comma removal, ParseUint. -/
def getUint (d : Selection) (selector : String) (kind : String) : Except Err Nat :=
  let s := if selector ≠ "" then trimStr (d.find selector).text else trimStr d.text
  if s = "" then Except.error (Err.notFound kind)
  else
    let s2 := removeCommas s
    match parseUint64 s2 with
    | some v => Except.ok v
    | none => Except.error (Err.numError "ParseUint" s2)

/-- getString of src/asip.go: trimmed text of the selector match (or of the
selection itself when the selector is empty); empty means not found. -/
def getString (d : Selection) (selector : String) (kind : String) : Except Err String :=
  let s := if selector ≠ "" then trimStr (d.find selector).text else trimStr d.text
  if s = "" then Except.error (Err.notFound kind)
  else Except.ok s

def globalRank (d : Selection) : Except Err Nat :=
  getUint d seGlobalRank "global rank"

def localRank (d : Selection) : Except Err Nat :=
  getUint d seLocalRank "local rank"

def country (d : Selection) : Except Err String :=
  getString d seCountry "country"

def linkingTotal (d : Selection) : Except Err Nat :=
  getUint d seLinkingTotal "linking total"

def title (d : Selection) : Except Err String :=
  getString d seTitle "site title"

def description (d : Selection) : Except Err String :=
  getString d seDescription "site description"

/-- noEnoughData of src/asip.go: the no-data marker node is present. -/
def noEnoughData (d : Selection) : Bool :=
  decide (0 < (d.find seNoData).length)

/-- List.zip-with-index starting at a given counter, as goquery's Each does. -/
def enumList {α : Type} : Nat → List α → List (Nat × α)
  | _, [] => []
  | n, a :: rest => (n, a) :: enumList (n + 1) rest

/-- The body of the visitors row callback.  Note that the error of the
per-row getUint is discarded: on failure LocalRank is the zero value. -/
def visRow (i : Nat) (tr : Elem) : Visitor :=
  let trs := Selection.one tr
  { Country := trimStr (trs.find "td a").text
  , Percent := trimStr ((trs.find "td span").first).text
  , LocalRank := okD (getUint ((trs.find "td span").last) "" (toString i ++ " country rank")) 0 }

def visitors (d : Selection) : Except Err (List Visitor) :=
  let tbody := d.find seVisitors
  if tbody.length = 0 then Except.error (Err.tableAbsent "no visitors found")
  else Except.ok ((enumList 0 (tbody.find "tr").elems).map (fun p => visRow p.1 p.2))

/-- The body of the keywords row callback. -/
def kwRow (tr : Elem) : Keyword :=
  let trs := Selection.one tr
  { Word := trimStr (trs.find "td:first-child span:last-child").text
  , Percent := trimStr (trs.find "td:last-child span").text }

def keywords (d : Selection) : Except Err (List Keyword) :=
  let tbody := d.find seKeywords
  if tbody.length = 0 then Except.error (Err.tableAbsent "no keywords found")
  else Except.ok ((tbody.find "tr").elems.map kwRow)

/-- The body of the upstreams row callback. -/
def upRow (tr : Elem) : Upstream :=
  let trs := Selection.one tr
  { Site := trimStr (trs.find "td a").text
  , Percent := trimStr (trs.find "td:last-child span").text }

def upstreams (d : Selection) : Except Err (List Upstream) :=
  let tbody := d.find seUpstreams
  if tbody.length = 0 then Except.error (Err.tableAbsent "no upstream servers found")
  else Except.ok ((tbody.find "tr").elems.map upRow)

/-- The body of the linksFrom row callback; a missing href yields the zero
value for Page. -/
def linkRow (tr : Elem) : Link :=
  let trs := Selection.one tr
  { Site := trimStr (trs.find "span.word-wrap a").text
  , Page := ((trs.find "a.word-wrap").attr "href").getD "" }

def linksFrom (d : Selection) : Except Err (List Link) :=
  let tbody := d.find seLinks
  if tbody.length = 0 then Except.error (Err.tableAbsent "no linking sites found")
  else Except.ok ((tbody.find "tr").elems.map linkRow)

/-- The body of the related row callback: the anchor text, untrimmed. -/
def relRow (tr : Elem) : String :=
  ((Selection.one tr).find "a").text

def related (d : Selection) : Except Err (List String) :=
  let tbody := d.find seRelated
  if tbody.length = 0 then Except.error (Err.tableAbsent "no related sites found")
  else Except.ok ((tbody.find "tr").elems.map relRow)

/-- The body of the categories callback: iterated per anchor, not per row,
and the anchor text is untrimmed. -/
def catEntry (a : Elem) : String :=
  (Selection.one a).text

def categories (d : Selection) : Except Err (List String) :=
  let tbody := d.find seCategories
  if tbody.length = 0 then Except.error (Err.tableAbsent "no categories found")
  else Except.ok ((tbody.find "a").elems.map catEntry)

/-- The body of the subdomains row callback: both cells untrimmed. -/
def subRow (tr : Elem) : Subdomain :=
  let trs := Selection.one tr
  { Domain := (trs.find "td:first-child span").text
  , Percent := (trs.find "td:last-child span").text }

def subdomains (d : Selection) : Except Err (List Subdomain) :=
  let tbody := d.find seSubdomains
  if tbody.length = 0 then Except.error (Err.tableAbsent "no subdomains found")
  else Except.ok ((tbody.find "tr").elems.map subRow)

/-- parse of src/asip.go, over an already-built document tree (the
HTML-to-DOM step is the external parser library).  Mirrors the source
exactly: the no-data check first, then the thirteen extractors in order,
each returning the record accumulated so far together with the error on
failure — except the first, which returns nil (here: none). -/
def parse (d : Selection) : Option Site × Option Err :=
  if noEnoughData d then (none, some Err.noEnoughData)
  else
    match globalRank d with
    | .error e => (none, some e)
    | .ok gr =>
      let s1 : Site := { GlobalRank := gr }
      match localRank d with
      | .error e => (some s1, some e)
      | .ok lr =>
        let s2 := { s1 with LocalRank := lr }
        match country d with
        | .error e => (some s2, some e)
        | .ok ct =>
          let s3 := { s2 with MainCountry := ct }
          match linkingTotal d with
          | .error e => (some s3, some e)
          | .ok lt =>
            let s4 := { s3 with LinkingTotal := lt }
            match title d with
            | .error e => (some s4, some e)
            | .ok tt =>
              let s5 := { s4 with Title := tt }
              match description d with
              | .error e => (some s5, some e)
              | .ok dsc =>
                let s6 := { s5 with Description := dsc }
                match visitors d with
                | .error e => (some s6, some e)
                | .ok vst =>
                  let s7 := { s6 with Visitors := vst }
                  match keywords d with
                  | .error e => (some s7, some e)
                  | .ok kws =>
                    let s8 := { s7 with Keywords := kws }
                    match upstreams d with
                    | .error e => (some s8, some e)
                    | .ok ups =>
                      let s9 := { s8 with Upstreams := ups }
                      match linksFrom d with
                      | .error e => (some s9, some e)
                      | .ok ls =>
                        let s10 := { s9 with LinksFrom := ls }
                        match related d with
                        | .error e => (some s10, some e)
                        | .ok rs =>
                          let s11 := { s10 with Related := rs }
                          match categories d with
                          | .error e => (some s11, some e)
                          | .ok cts =>
                            let s12 := { s11 with Categories := cts }
                            match subdomains d with
                            | .error e => (some s12, some e)
                            | .ok ss =>
                              let s13 := { s12 with Subdomains := ss }
                              (some s13, none)

/-- The thirteen pipeline stages, in the order of the source. -/
inductive Stage : Type where
  | globalRank | localRank | country | linkingTotal | title | description
  | visitors | keywords | upstreams | linksFrom | related | categories | subdomains
deriving DecidableEq

def allStages : List Stage :=
  [Stage.globalRank, Stage.localRank, Stage.country, Stage.linkingTotal,
   Stage.title, Stage.description, Stage.visitors, Stage.keywords,
   Stage.upstreams, Stage.linksFrom, Stage.related, Stage.categories,
   Stage.subdomains]

/-- parse instrumented with the list of stages whose extractor was run:
line for line the same control flow as parse, plus the ghost trace. -/
def parseT (d : Selection) : (Option Site × Option Err) × List Stage :=
  if noEnoughData d then ((none, some Err.noEnoughData), [])
  else
    match globalRank d with
    | .error e => ((none, some e), allStages.take 1)
    | .ok gr =>
      let s1 : Site := { GlobalRank := gr }
      match localRank d with
      | .error e => ((some s1, some e), allStages.take 2)
      | .ok lr =>
        let s2 := { s1 with LocalRank := lr }
        match country d with
        | .error e => ((some s2, some e), allStages.take 3)
        | .ok ct =>
          let s3 := { s2 with MainCountry := ct }
          match linkingTotal d with
          | .error e => ((some s3, some e), allStages.take 4)
          | .ok lt =>
            let s4 := { s3 with LinkingTotal := lt }
            match title d with
            | .error e => ((some s4, some e), allStages.take 5)
            | .ok tt =>
              let s5 := { s4 with Title := tt }
              match description d with
              | .error e => ((some s5, some e), allStages.take 6)
              | .ok dsc =>
                let s6 := { s5 with Description := dsc }
                match visitors d with
                | .error e => ((some s6, some e), allStages.take 7)
                | .ok vst =>
                  let s7 := { s6 with Visitors := vst }
                  match keywords d with
                  | .error e => ((some s7, some e), allStages.take 8)
                  | .ok kws =>
                    let s8 := { s7 with Keywords := kws }
                    match upstreams d with
                    | .error e => ((some s8, some e), allStages.take 9)
                    | .ok ups =>
                      let s9 := { s8 with Upstreams := ups }
                      match linksFrom d with
                      | .error e => ((some s9, some e), allStages.take 10)
                      | .ok ls =>
                        let s10 := { s9 with LinksFrom := ls }
                        match related d with
                        | .error e => ((some s10, some e), allStages.take 11)
                        | .ok rs =>
                          let s11 := { s10 with Related := rs }
                          match categories d with
                          | .error e => ((some s11, some e), allStages.take 12)
                          | .ok cts =>
                            let s12 := { s11 with Categories := cts }
                            match subdomains d with
                            | .error e => ((some s12, some e), allStages.take 13)
                            | .ok ss =>
                              let s13 := { s12 with Subdomains := ss }
                              ((some s13, none), allStages)

/-- An HTTP response as siteInfo consumes it: a status code and a body
(already parsed into a document tree by the time parse sees it). -/
structure HttpResponse where
  statusCode : Nat
  body : Selection

/-- siteInfo of src/asip.go: run the GET function, fail on transport error,
fail on any status other than 200 naming the code, otherwise parse. -/
def siteInfo (domain : String) (f : String → Except String HttpResponse) :
    Option Site × Option Err :=
  match f domain with
  | .error e => (none, some (Err.transport e))
  | .ok resp =>
    if resp.statusCode ≠ 200 then (none, some (Err.status resp.statusCode domain))
    else parse resp.body

/-- The error component of an extractor result. -/
def errOpt {α : Type} (x : Except Err α) : Option Err :=
  match x with
  | .error e => some e
  | .ok _ => none

/-- Index (from the given counter) and error of the first failing entry. -/
def firstFailAux : List (Option Err) → Nat → Option (Nat × Err)
  | [], _ => none
  | some e :: _, k => some (k, e)
  | none :: rest, k => firstFailAux rest (k + 1)

/-- The per-stage extractor errors of a document, in pipeline order. -/
def stageErrList (d : Selection) : List (Option Err) :=
  [errOpt (globalRank d), errOpt (localRank d), errOpt (country d),
   errOpt (linkingTotal d), errOpt (title d), errOpt (description d),
   errOpt (visitors d), errOpt (keywords d), errOpt (upstreams d),
   errOpt (linksFrom d), errOpt (related d), errOpt (categories d),
   errOpt (subdomains d)]

/-- The first failing stage of the pipeline on a document, with its error. -/
def firstFail (d : Selection) : Option (Nat × Err) :=
  firstFailAux (stageErrList d) 0

/-- The record holding the extracted value of every stage with index below
k and the zero value everywhere else. -/
def accumSite (d : Selection) (k : Nat) : Site :=
  { Title := if 4 < k then okD (title d) "" else ""
  , Description := if 5 < k then okD (description d) "" else ""
  , MainCountry := if 2 < k then okD (country d) "" else ""
  , GlobalRank := if 0 < k then okD (globalRank d) 0 else 0
  , LocalRank := if 1 < k then okD (localRank d) 0 else 0
  , LinkingTotal := if 3 < k then okD (linkingTotal d) 0 else 0
  , Visitors := if 6 < k then okD (visitors d) [] else []
  , Keywords := if 7 < k then okD (keywords d) [] else []
  , Upstreams := if 8 < k then okD (upstreams d) [] else []
  , Related := if 10 < k then okD (related d) [] else []
  , Subdomains := if 12 < k then okD (subdomains d) [] else []
  , Categories := if 11 < k then okD (categories d) [] else []
  , LinksFrom := if 9 < k then okD (linksFrom d) [] else [] }

/-- The outcome parse should have given its first failing stage: success
yields the full record; a failure of the very first stage yields no record
at all; a failure of a later stage k yields the stage-k partial record. -/
def parseOut (ff : Option (Nat × Err)) (d : Selection) : Option Site × Option Err :=
  match ff with
  | none => (some (accumSite d 13), none)
  | some (k, e) => if k = 0 then (none, some e) else (some (accumSite d k), some e)

/-- The stages the pipeline should attempt given its first failing stage. -/
def stagesUpTo (ff : Option (Nat × Err)) : List Stage :=
  match ff with
  | none => allStages
  | some (k, _) => allStages.take (k + 1)

-- Concrete document builders for witnesses and counterexamples.

/-- A childless element with the given text. -/
def leafE (t : String) : Elem :=
  Elem.mk t [] []

/-- A textless element with the given selector map. -/
def nodeE (kids : List (String × List Elem)) : Elem :=
  Elem.mk "" [] kids

/-- A one-root document with the given selector map. -/
def docOf (kids : List (String × List Elem)) : Selection :=
  ⟨[nodeE kids]⟩

/-- A document in which one selector matches one leaf with the given text. -/
def mkFieldDoc (sel : String) (t : String) : Selection :=
  docOf [(sel, [leafE t])]

/-- A document whose table container for the given selector has the given
selector map (rows under "tr", anchors under "a", and so on). -/
def mkTbodyDoc (sel : String) (kids : List (String × List Elem)) : Selection :=
  docOf [(sel, [nodeE kids])]

/-- A document whose table container for the given selector has the given
rows. -/
def mkRowsDoc (sel : String) (rows : List Elem) : Selection :=
  mkTbodyDoc sel [("tr", rows)]

/-- The empty document: no selector matches anything. -/
def emptyDoc : Selection :=
  ⟨[]⟩

/-- A document carrying (only) the no-data marker node. -/
def noDataDoc : Selection :=
  docOf [(seNoData, [leafE ""])]

/-- A document on which globalRank succeeds (with 506) and localRank fails. -/
def grOnlyDoc : Selection :=
  mkFieldDoc seGlobalRank "506"

/-- A visitors row whose country-rank cell does not parse as a number. -/
def visRowBad : Elem :=
  nodeE [("td a", [leafE "Russia"]), ("td span", [leafE "83.8%", leafE "abc"])]

/-- A document whose visitors table has exactly the one bad-rank row. -/
def visBadDoc : Selection :=
  mkRowsDoc seVisitors [visRowBad]

/-- A document whose visitors container is present but holds zero rows. -/
def visEmptyTbodyDoc : Selection :=
  mkRowsDoc seVisitors []

/-- A document in which one selector matches two leaves, texts "a" and "b". -/
def twoMatchDoc : Selection :=
  docOf [("p.x", [leafE "a", leafE "b"])]

/-- A categories container with one row but two anchors. -/
def catMixDoc : Selection :=
  mkTbodyDoc seCategories [("tr", [nodeE []]), ("a", [leafE "c1", leafE "c2"])]

/-- A keywords row whose percentage cell is absent (empty-cell row). -/
def kwRowNoPercent : Elem :=
  nodeE [("td:first-child span:last-child", [leafE "hello"])]

/-- A GET function always answering status 500 with an empty body. -/
def get500 : String → Except String HttpResponse :=
  fun _ => Except.ok ⟨500, emptyDoc⟩

/-- A visitors row: country anchor, percent span, country-rank span. -/
def visRowOf (c p t : String) : Elem :=
  nodeE [("td a", [leafE c]), ("td span", [leafE p, leafE t])]

/-- A keywords row with the given word and percentage cells. -/
def kwRowOf (a b : String) : Elem :=
  nodeE [("td:first-child span:last-child", [leafE a]), ("td:last-child span", [leafE b])]

/-- An upstreams row with the given site and percentage cells. -/
def upRowOf (a b : String) : Elem :=
  nodeE [("td a", [leafE a]), ("td:last-child span", [leafE b])]

/-- A subdomains row with the given domain and percentage cells. -/
def subRowOf (a b : String) : Elem :=
  nodeE [("td:first-child span", [leafE a]), ("td:last-child span", [leafE b])]

/-- A related row whose anchor has the given text. -/
def relRowOf (t : String) : Elem :=
  nodeE [("a", [leafE t])]

end Asip

namespace Asip

/-- Appending to the empty string is the identity. -/
theorem str_empty_append (t : String) : "" ++ t = t := by
  cases t
  rfl

/-- The text of a one-element selection is the element text. -/
theorem text_one (e : Elem) : (Selection.one e).text = e.text := by
  simp [Selection.one, Selection.text]

/-- Find on a one-root document is lookup in the root selector map. -/
theorem find_docOf (kids : List (String × List Elem)) (sel : String) :
    (docOf kids).find sel = ⟨lookupKids kids sel⟩ := by
  simp [docOf, Selection.find, findAll, nodeE, Elem.findList]

set_option maxHeartbeats 2000000 in
/-- parse, parseT and the ghost trace agree with the first-failing-stage
characterization parseOut / stagesUpTo on every document without the
no-data marker.  Shared backbone of the pipeline-level claims. -/
theorem parse_cases (d : Selection) (h : noEnoughData d = false) :
    parse d = parseOut (firstFail d) d ∧
    parseT d = (parseOut (firstFail d) d, stagesUpTo (firstFail d)) := by
  cases h0 : globalRank d with
  | error e => constructor <;> simp [parse, parseT, firstFail, stageErrList, firstFailAux, errOpt, parseOut, stagesUpTo, accumSite, okD, h, h0]
  | ok v0 =>
    cases h1 : localRank d with
    | error e => constructor <;> simp [parse, parseT, firstFail, stageErrList, firstFailAux, errOpt, parseOut, stagesUpTo, accumSite, okD, h, h0, h1]
    | ok v1 =>
      cases h2 : country d with
      | error e => constructor <;> simp [parse, parseT, firstFail, stageErrList, firstFailAux, errOpt, parseOut, stagesUpTo, accumSite, okD, h, h0, h1, h2]
      | ok v2 =>
        cases h3 : linkingTotal d with
        | error e => constructor <;> simp [parse, parseT, firstFail, stageErrList, firstFailAux, errOpt, parseOut, stagesUpTo, accumSite, okD, h, h0, h1, h2, h3]
        | ok v3 =>
          cases h4 : title d with
          | error e => constructor <;> simp [parse, parseT, firstFail, stageErrList, firstFailAux, errOpt, parseOut, stagesUpTo, accumSite, okD, h, h0, h1, h2, h3, h4]
          | ok v4 =>
            cases h5 : description d with
            | error e => constructor <;> simp [parse, parseT, firstFail, stageErrList, firstFailAux, errOpt, parseOut, stagesUpTo, accumSite, okD, h, h0, h1, h2, h3, h4, h5]
            | ok v5 =>
              cases h6 : visitors d with
              | error e => constructor <;> simp [parse, parseT, firstFail, stageErrList, firstFailAux, errOpt, parseOut, stagesUpTo, accumSite, okD, h, h0, h1, h2, h3, h4, h5, h6]
              | ok v6 =>
                cases h7 : keywords d with
                | error e => constructor <;> simp [parse, parseT, firstFail, stageErrList, firstFailAux, errOpt, parseOut, stagesUpTo, accumSite, okD, h, h0, h1, h2, h3, h4, h5, h6, h7]
                | ok v7 =>
                  cases h8 : upstreams d with
                  | error e => constructor <;> simp [parse, parseT, firstFail, stageErrList, firstFailAux, errOpt, parseOut, stagesUpTo, accumSite, okD, h, h0, h1, h2, h3, h4, h5, h6, h7, h8]
                  | ok v8 =>
                    cases h9 : linksFrom d with
                    | error e => constructor <;> simp [parse, parseT, firstFail, stageErrList, firstFailAux, errOpt, parseOut, stagesUpTo, accumSite, okD, h, h0, h1, h2, h3, h4, h5, h6, h7, h8, h9]
                    | ok v9 =>
                      cases h10 : related d with
                      | error e => constructor <;> simp [parse, parseT, firstFail, stageErrList, firstFailAux, errOpt, parseOut, stagesUpTo, accumSite, okD, h, h0, h1, h2, h3, h4, h5, h6, h7, h8, h9, h10]
                      | ok v10 =>
                        cases h11 : categories d with
                        | error e => constructor <;> simp [parse, parseT, firstFail, stageErrList, firstFailAux, errOpt, parseOut, stagesUpTo, accumSite, okD, h, h0, h1, h2, h3, h4, h5, h6, h7, h8, h9, h10, h11]
                        | ok v11 =>
                          cases h12 : subdomains d with
                          | error e => constructor <;> simp [parse, parseT, firstFail, stageErrList, firstFailAux, errOpt, parseOut, stagesUpTo, accumSite, okD, h, h0, h1, h2, h3, h4, h5, h6, h7, h8, h9, h10, h11, h12]
                          | ok v12 =>
                            constructor <;> simp [parse, parseT, firstFail, stageErrList, firstFailAux, errOpt, parseOut, stagesUpTo, accumSite, okD, h, h0, h1, h2, h3, h4, h5, h6, h7, h8, h9, h10, h11, h12]

end Asip

namespace Asip

/-- C1 counterexample: on a document that lacks the no-data marker and whose
Global-Rank extractor fails, parse returns the error with NO record at all
(the Go code returns nil for the first stage), not a record in its zero
state as the claim demands. -/
theorem parse_globalRank_failure_no_record :
    noEnoughData emptyDoc = false ∧
    parse emptyDoc = (none, some (Err.notFound "global rank")) :=
  ⟨rfl, rfl⟩

/-- C1 (amended): for every document that lacks the no-data marker, parse
returns the outcome of the first failing stage: on success the fully
populated record; on a failure of stage k > 0 the record whose fields
before stage k hold their extracted values and whose fields at or after
stage k are in their zero state, together with that stage's error; on a
failure of the very first stage (Global-Rank) no record at all (nil) plus
the error. -/
theorem parse_partial_record_after_failure (d : Selection)
    (h : noEnoughData d = false) :
    parse d = parseOut (firstFail d) d :=
  (parse_cases d h).1

theorem parse_partial_record_after_failure_witness :
    noEnoughData grOnlyDoc = false ∧
    parse grOnlyDoc = parseOut (firstFail grOnlyDoc) grOnlyDoc :=
  ⟨rfl, parse_partial_record_after_failure grOnlyDoc rfl⟩

/-- C2 (confirmed): the instrumented pipeline parseT computes the same
result as parse, and the stages it attempts are exactly the prefix of the
fixed order Global-Rank .. Subdomains up to and including the first failing
stage (all thirteen when none fails): each stage is gated on the success of
the previous one and no later extractor runs once one fails. -/
theorem parse_fixed_order_gating (d : Selection)
    (h : noEnoughData d = false) :
    (parseT d).1 = parse d ∧ (parseT d).2 = stagesUpTo (firstFail d) := by
  obtain ⟨h1, h2⟩ := parse_cases d h
  exact ⟨by rw [h2]; exact h1.symm, by rw [h2]⟩

theorem parse_fixed_order_gating_witness :
    noEnoughData grOnlyDoc = false ∧
    (parseT grOnlyDoc).1 = parse grOnlyDoc ∧
    (parseT grOnlyDoc).2 = stagesUpTo (firstFail grOnlyDoc) :=
  ⟨rfl, (parse_fixed_order_gating grOnlyDoc rfl).1,
    (parse_fixed_order_gating grOnlyDoc rfl).2⟩

/-- C3 (confirmed): for every document carrying the no-data marker, parse
returns exactly the sentinel insufficient-data error with no record, the
instrumented pipeline attempts no field extractor at all, and the sentinel
is distinct from every per-field error kind. -/
theorem parse_no_data_short_circuit (d : Selection)
    (h : noEnoughData d = true) :
    parse d = (none, some Err.noEnoughData) ∧
    parseT d = ((none, some Err.noEnoughData), []) ∧
    (∀ kind, Err.noEnoughData ≠ Err.notFound kind) ∧
    (∀ fn num, Err.noEnoughData ≠ Err.numError fn num) ∧
    (∀ msg, Err.noEnoughData ≠ Err.tableAbsent msg) := by
  refine ⟨?_, ?_, ?_, ?_, ?_⟩ <;> simp [parse, parseT, h]

theorem parse_no_data_short_circuit_witness :
    noEnoughData noDataDoc = true ∧
    parse noDataDoc = (none, some Err.noEnoughData) ∧
    parseT noDataDoc = ((none, some Err.noEnoughData), []) :=
  ⟨rfl, (parse_no_data_short_circuit noDataDoc rfl).1,
    (parse_no_data_short_circuit noDataDoc rfl).2.1⟩

end Asip

namespace Asip

/-- C4 counterexample: a visitors container that is present but matches
zero rows does NOT make extraction fail — it yields an empty list — so
"absent or matches zero rows implies failure" is false on the code. -/
theorem tabular_present_empty_container_no_error :
    (visEmptyTbodyDoc.find seVisitors).length = 1 ∧
    ((visEmptyTbodyDoc.find seVisitors).find "tr").length = 0 ∧
    visitors visEmptyTbodyDoc = Except.ok [] :=
  ⟨rfl, rfl, rfl⟩

/-- C4 (amended): for every tabular field, if the container selector
matches zero nodes the extractor fails with that field's no-data error;
a container that is present but holds zero rows yields an empty list
without error. -/
theorem tabular_absent_container_error (d : Selection) :
    ((d.find seVisitors).length = 0 →
      visitors d = Except.error (Err.tableAbsent "no visitors found")) ∧
    ((d.find seKeywords).length = 0 →
      keywords d = Except.error (Err.tableAbsent "no keywords found")) ∧
    ((d.find seUpstreams).length = 0 →
      upstreams d = Except.error (Err.tableAbsent "no upstream servers found")) ∧
    ((d.find seLinks).length = 0 →
      linksFrom d = Except.error (Err.tableAbsent "no linking sites found")) ∧
    ((d.find seRelated).length = 0 →
      related d = Except.error (Err.tableAbsent "no related sites found")) ∧
    ((d.find seCategories).length = 0 →
      categories d = Except.error (Err.tableAbsent "no categories found")) ∧
    ((d.find seSubdomains).length = 0 →
      subdomains d = Except.error (Err.tableAbsent "no subdomains found")) ∧
    visitors visEmptyTbodyDoc = Except.ok [] := by
  refine ⟨fun h1 => ?_, fun h1 => ?_, fun h1 => ?_, fun h1 => ?_,
    fun h1 => ?_, fun h1 => ?_, fun h1 => ?_, rfl⟩ <;>
    simp [visitors, keywords, upstreams, linksFrom, related, categories,
      subdomains, h1]

theorem tabular_absent_container_error_witness :
    (emptyDoc.find seVisitors).length = 0 ∧
    visitors emptyDoc = Except.error (Err.tableAbsent "no visitors found") :=
  ⟨rfl, (tabular_absent_container_error emptyDoc).1 rfl⟩

/-- C5 counterexample: in the visitors extractor the per-row country-rank
getUint fails on the row whose rank cell reads abc, yet visitors returns
the row with LocalRank 0 and no error: that failure is swallowed, refuting
the claim that no error arising during extraction is swallowed. -/
theorem visitors_swallow_rank_error :
    getUint ((((Selection.one visRowBad).find "td span")).last) ""
      "0 country rank" = Except.error (Err.numError "ParseUint" "abc") ∧
    visitors visBadDoc =
      Except.ok [{ Country := "Russia", Percent := "83.8%", LocalRank := 0 }] :=
  ⟨rfl, rfl⟩

/-- C5 (amended): every error returned by a stage extractor propagates to
the caller of parse — the returned error is exactly the first failing
stage's error — and the failure modes are pairwise distinguishable by
kind; but inside the visitors extractor a per-row country-rank parse
failure is swallowed: the row is kept with LocalRank 0 and the numeric
error is not returned. -/
theorem error_propagation_except_visitor_rank :
    (∀ d, noEnoughData d = false →
      (parse d).2 = Option.map Prod.snd (firstFail d)) ∧
    (∀ t, trimStr t ≠ "" → parseUint64 (removeCommas (trimStr t)) = none →
      getUint (Selection.one (leafE t)) "" "0 country rank" =
        Except.error (Err.numError "ParseUint" (removeCommas (trimStr t))) ∧
      visitors (mkRowsDoc seVisitors [visRowOf "Russia" "83.8%" t]) =
        Except.ok [{ Country := "Russia", Percent := "83.8%", LocalRank := 0 }]) ∧
    (∀ kind fn num msg code dom tmsg,
      Err.noEnoughData ≠ Err.notFound kind ∧
      Err.noEnoughData ≠ Err.numError fn num ∧
      Err.noEnoughData ≠ Err.tableAbsent msg ∧
      Err.noEnoughData ≠ Err.status code dom ∧
      Err.noEnoughData ≠ Err.transport tmsg ∧
      Err.notFound kind ≠ Err.numError fn num ∧
      Err.notFound kind ≠ Err.tableAbsent msg ∧
      Err.notFound kind ≠ Err.status code dom ∧
      Err.notFound kind ≠ Err.transport tmsg ∧
      Err.numError fn num ≠ Err.tableAbsent msg ∧
      Err.numError fn num ≠ Err.status code dom ∧
      Err.numError fn num ≠ Err.transport tmsg ∧
      Err.tableAbsent msg ≠ Err.status code dom ∧
      Err.tableAbsent msg ≠ Err.transport tmsg ∧
      Err.status code dom ≠ Err.transport tmsg) := by
  refine ⟨?_, ?_, by intro kind fn num msg code dom tmsg; simp⟩
  · intro d h
    rw [(parse_cases d h).1]
    cases hf : firstFail d with
    | none => simp [parseOut]
    | some p =>
      obtain ⟨k, e⟩ := p
      by_cases hk : k = 0 <;> simp [parseOut, hk]
  · intro t h1 h2
    constructor
    · simp [getUint, Selection.one, Selection.text, leafE, Elem.text,
        str_empty_append, h1, h2]
    · simp [visitors, mkRowsDoc, mkTbodyDoc, find_docOf, lookupKids,
        Selection.length, enumList, visRow, visRowOf, nodeE, leafE,
        Selection.one, Selection.find, findAll, Elem.findList,
        Selection.first, Selection.last, Selection.text, Elem.text,
        str_empty_append, getUint, okD, h1, h2]
      decide

theorem error_propagation_except_visitor_rank_witness :
    (noEnoughData grOnlyDoc = false ∧
      (parse grOnlyDoc).2 = Option.map Prod.snd (firstFail grOnlyDoc)) ∧
    (trimStr "abc" ≠ "" ∧ parseUint64 (removeCommas (trimStr "abc")) = none ∧
      visitors (mkRowsDoc seVisitors [visRowOf "Russia" "83.8%" "abc"]) =
        Except.ok [{ Country := "Russia", Percent := "83.8%", LocalRank := 0 }]) :=
  ⟨⟨rfl, (error_propagation_except_visitor_rank).1 grOnlyDoc rfl⟩,
    ⟨by decide, rfl,
      ((error_propagation_except_visitor_rank).2.1 "abc" (by decide) rfl).2⟩⟩

/-- C6 (confirmed): a numeric field strips commas from the trimmed text
before parsing, so 1,234,567 and 1234567 give the identical value; when
parsing fails after comma removal the error is the malformed-number kind,
distinct from the field-not-found kind. -/
theorem getUint_comma_insensitive (sel kind : String) (h : sel ≠ "") :
    getUint (mkFieldDoc sel "1,234,567") sel kind = Except.ok 1234567 ∧
    getUint (mkFieldDoc sel "1234567") sel kind = Except.ok 1234567 ∧
    (∀ t, trimStr t ≠ "" → parseUint64 (removeCommas (trimStr t)) = none →
      getUint (mkFieldDoc sel t) sel kind =
        Except.error (Err.numError "ParseUint" (removeCommas (trimStr t))) ∧
      (∀ k2, Err.numError "ParseUint" (removeCommas (trimStr t)) ≠ Err.notFound k2)) := by
  refine ⟨?_, ?_, fun t h1 h2 => ⟨?_, fun k2 => by simp⟩⟩
  · simp [getUint, mkFieldDoc, find_docOf, lookupKids, text_one, leafE,
      Selection.one, Selection.text, Elem.text, h]
    rfl
  · simp [getUint, mkFieldDoc, find_docOf, lookupKids, text_one, leafE,
      Selection.one, Selection.text, Elem.text, h]
    rfl
  · simp [getUint, mkFieldDoc, find_docOf, lookupKids, text_one, leafE,
      Selection.one, Selection.text, Elem.text, str_empty_append, h, h1, h2]

theorem getUint_comma_insensitive_witness :
    (seGlobalRank ≠ "" ∧
      getUint (mkFieldDoc seGlobalRank "1,234,567") seGlobalRank "global rank" =
        Except.ok 1234567) ∧
    (trimStr "12x" ≠ "" ∧
      getUint (mkFieldDoc seGlobalRank "12x") seGlobalRank "global rank" =
        Except.error (Err.numError "ParseUint" (removeCommas (trimStr "12x")))) :=
  ⟨⟨by decide, (getUint_comma_insensitive seGlobalRank "global rank" (by decide)).1⟩,
    ⟨by decide,
      ((getUint_comma_insensitive seGlobalRank "global rank" (by decide)).2.2
        "12x" (by decide) rfl).1⟩⟩

end Asip

namespace Asip

/-- C7 counterexample: with two nodes matching (texts a and b), getString
returns the trimmed concatenation ab of ALL matched nodes, not the text a
of the first matching node as the claim states. -/
theorem getString_concatenates_all_matches :
    getString twoMatchDoc "p.x" "country" = Except.ok "ab" ∧
    trimStr ((twoMatchDoc.find "p.x").first).text = "a" ∧
    ("ab" : String) ≠ "a" :=
  ⟨rfl, rfl, by decide⟩

/-- C7 (amended): for every document and nonempty selector, if the
concatenated text of the matching nodes is empty after trimming (in
particular when nothing matches) scalar extraction fails with a
field-not-found error naming the field; otherwise it returns the trimmed
concatenated text of all matching nodes. -/
theorem getString_spec (d : Selection) (sel kind : String) (h : sel ≠ "") :
    (trimStr (d.find sel).text = "" →
      getString d sel kind = Except.error (Err.notFound kind)) ∧
    (trimStr (d.find sel).text ≠ "" →
      getString d sel kind = Except.ok (trimStr (d.find sel).text)) := by
  constructor <;> intro h2 <;> simp [getString, h, h2]

theorem getString_spec_witness :
    (("q" : String) ≠ "" ∧ trimStr ((mkFieldDoc "q" " x ").find "q").text ≠ "" ∧
      getString (mkFieldDoc "q" " x ") "q" "f" =
        Except.ok (trimStr ((mkFieldDoc "q" " x ").find "q").text)) ∧
    (trimStr ((emptyDoc.find "q")).text = "" ∧
      getString emptyDoc "q" "f" = Except.error (Err.notFound "f")) :=
  ⟨⟨by decide, by decide,
      (getString_spec (mkFieldDoc "q" " x ") "q" "f" (by decide)).2 (by decide)⟩,
    ⟨rfl, (getString_spec emptyDoc "q" "f" (by decide)).1 rfl⟩⟩

/-- C8 counterexample: a categories container with exactly one row but two
anchors yields two entries, so the categories extractor does not append
exactly one sub-record per row. -/
theorem categories_entries_per_anchor :
    ((catMixDoc.find seCategories).find "tr").length = 1 ∧
    categories catMixDoc = Except.ok ["c1", "c2"] :=
  ⟨rfl, rfl⟩

/-- C8 (amended): for a present container, visitors, keywords, upstreams,
links-from, related and subdomains append exactly one sub-record per "tr"
row, in document order; categories instead appends one entry per anchor in
the container (a row may yield several entries or none); a row with an
empty cell still yields a sub-record, with the empty string in that field
(concretely: a keywords row with no percentage cell). -/
theorem tabular_row_mapping (rows : List Elem) (anchors : List Elem) :
    visitors (mkRowsDoc seVisitors rows) =
      Except.ok ((enumList 0 rows).map (fun p => visRow p.1 p.2)) ∧
    keywords (mkRowsDoc seKeywords rows) = Except.ok (rows.map kwRow) ∧
    upstreams (mkRowsDoc seUpstreams rows) = Except.ok (rows.map upRow) ∧
    linksFrom (mkRowsDoc seLinks rows) = Except.ok (rows.map linkRow) ∧
    related (mkRowsDoc seRelated rows) = Except.ok (rows.map relRow) ∧
    subdomains (mkRowsDoc seSubdomains rows) = Except.ok (rows.map subRow) ∧
    categories (mkTbodyDoc seCategories [("a", anchors)]) =
      Except.ok (anchors.map catEntry) ∧
    keywords (mkRowsDoc seKeywords [kwRowNoPercent]) =
      Except.ok [{ Word := "hello", Percent := "" }] := by
  refine ⟨?_, ?_, ?_, ?_, ?_, ?_, ?_, rfl⟩ <;>
    simp [visitors, keywords, upstreams, linksFrom, related, subdomains,
      categories, mkRowsDoc, mkTbodyDoc, find_docOf, lookupKids,
      Selection.length, Selection.find, findAll, nodeE, Elem.findList]

/-- C9 (confirmed): whenever the GET function answers with any status code
other than 200, siteInfo returns the fatal status error naming that code
and no record, whatever the body is — the body is never parsed, as the
result is the same for every body. -/
theorem siteInfo_non_ok_status (domain : String)
    (f : String → Except String HttpResponse) (resp : HttpResponse)
    (hf : f domain = Except.ok resp) (hs : resp.statusCode ≠ 200) :
    siteInfo domain f = (none, some (Err.status resp.statusCode domain)) ∧
    (∀ b : Selection,
      siteInfo domain (fun _ => Except.ok (HttpResponse.mk resp.statusCode b)) =
        (none, some (Err.status resp.statusCode domain))) := by
  constructor
  · simp [siteInfo, hf, hs]
  · intro b
    simp [siteInfo, hs]

theorem siteInfo_non_ok_status_witness :
    get500 "example.com" = Except.ok ⟨500, emptyDoc⟩ ∧ (500 : Nat) ≠ 200 ∧
    siteInfo "example.com" get500 = (none, some (Err.status 500 "example.com")) :=
  ⟨rfl, by decide,
    (siteInfo_non_ok_status "example.com" get500 ⟨500, emptyDoc⟩ rfl (by decide)).1⟩

/-- C10 (confirmed): the related, categories and subdomains extractors keep
the cell text verbatim — an arbitrary text t, whitespace included, appears
unchanged in the result — while keywords, upstreams, visitors and the
scalar getString return trimmed text. -/
theorem untrimmed_related_categories_subdomains (t : String) :
    related (mkRowsDoc seRelated [relRowOf t]) = Except.ok [t] ∧
    categories (mkTbodyDoc seCategories [("a", [leafE t])]) = Except.ok [t] ∧
    subdomains (mkRowsDoc seSubdomains [subRowOf t t]) =
      Except.ok [{ Domain := t, Percent := t }] ∧
    keywords (mkRowsDoc seKeywords [kwRowOf t t]) =
      Except.ok [{ Word := trimStr t, Percent := trimStr t }] ∧
    upstreams (mkRowsDoc seUpstreams [upRowOf t t]) =
      Except.ok [{ Site := trimStr t, Percent := trimStr t }] ∧
    visitors (mkRowsDoc seVisitors [nodeE [("td a", [leafE t])]]) =
      Except.ok [{ Country := trimStr t, Percent := "", LocalRank := 0 }] ∧
    getString (mkFieldDoc "q" t) "q" "f" =
      (if trimStr t = "" then Except.error (Err.notFound "f")
        else Except.ok (trimStr t)) := by
  refine ⟨?_, ?_, ?_, ?_, ?_, ?_, ?_⟩ <;>
    simp [related, categories, subdomains, keywords, upstreams, visitors,
      getString, relRow, catEntry, subRow, kwRow, upRow, visRow, relRowOf,
      subRowOf, kwRowOf, upRowOf, mkRowsDoc, mkTbodyDoc, mkFieldDoc,
      find_docOf, lookupKids, Selection.length, Selection.find, findAll,
      nodeE, leafE, Elem.findList, Elem.text, Selection.one, Selection.first,
      Selection.last, Selection.text, str_empty_append, enumList, getUint,
      okD]
  decide

end Asip
